import Mathlib

/-!
Verification development for the Vulkan rendering backend of the
`rust-game` client (`src/client/src/renderer/vulkan/`).

The definitions below are shallow embeddings of the corresponding Rust
functions in `device.rs` and `surface.rs`.  Driver-side opaque handles
(`vk::Queue`, `vk::Semaphore`, ...) are modelled as natural numbers;
Rust `Vec` becomes `List`; `HashMap<String, Pipeline>` becomes an
association list; fallible operations (`unwrap`, `expect`) are modelled
in the `Option` monad, with `none` standing for a panic/abort.
-/

namespace RustGame

/-- Rust's `Iterator::reduce`: `none` on an empty list, otherwise a left
fold of `f` starting from the first element. -/
def reduce (f : α → α → α) : List α → Option α
  | [] => none
  | x :: xs => some (xs.foldl f x)

/-! ## Pipeline registry (`device.rs`, `Device::create_pipeline`, lines 242-269) -/

/-- The data of a `Pipeline` relevant to the registry: the shader paths it
was built from (`pipeline.rs`, `Pipeline::new`); GPU handles are omitted. -/
structure Pipeline where
  vertex_shader_path : String
  fragment_shader_path : String
  deriving DecidableEq, Repr

/-- Rust `Pipeline::new(device, surface, vertex_shader_path, fragment_shader_path)`
(`pipeline.rs` line 44), restricted to the registry-relevant data. -/
def Pipeline.new (vertex_shader_path fragment_shader_path : String) : Pipeline :=
  ⟨vertex_shader_path, fragment_shader_path⟩

/-- The `HashMap<String, Pipeline>` registry, as an association list with
unique keys maintained by `mapInsert`. -/
abbrev PipelineMap := List (String × Pipeline)

/-- Models `HashMap::contains_key`. -/
def containsKey : PipelineMap → String → Bool
  | [], _ => false
  | (k, _) :: rest, name => k = name || containsKey rest name

/-- Models `HashMap::insert`: it returns the updated map together with the previous
value under the key (`some` iff an entry was already present). -/
def mapInsert : PipelineMap → String → Pipeline → PipelineMap × Option Pipeline
  | [], k, v => ([(k, v)], none)
  | (k', v') :: rest, k, v =>
    if k' = k then ((k, v) :: rest, some v')
    else
      let r := mapInsert rest k v
      ((k', v') :: r.1, r.2)

/-- Embeds `Device::create_pipeline` (`device.rs` lines 242-269).  The registry
`pipelines` stands for `self.pipelines`, `fileExists` for
`std::path::Path::exists`.  Returns the registry after the call together
with the `Result` value (error payloads are the source's message strings). -/
def create_pipeline (pipelines : PipelineMap) (fileExists : String → Bool)
    (vertex_shader_path fragment_shader_path name : String) :
    PipelineMap × Except String Unit :=
  if containsKey pipelines name then
    (pipelines, Except.error "A pipeline already exists with the specified name")
  else if ¬ fileExists vertex_shader_path then
    (pipelines, Except.error "A shader file could not be found at the specified path")
  else if ¬ fileExists fragment_shader_path then
    (pipelines, Except.error "A shader file could not be found at the specified path")
  else
    let r := mapInsert pipelines name
      (Pipeline.new vertex_shader_path fragment_shader_path)
    if r.2.isSome then
      (r.1, Except.ok ())
    else
      (r.1, Except.error "Failed to insert pipeline into device map")

/-! ## Physical-device selection (`device.rs`, `Device::new` lines 66-85,
`get_device_local_memory_size` lines 837-863) -/

/-- Models `vk::PhysicalDeviceType`. -/
inductive PhysicalDeviceType where
  | other
  | integrated_gpu
  | discrete_gpu
  | virtual_gpu
  | cpu
  deriving DecidableEq, Repr

/-- One entry of `vk::PhysicalDeviceMemoryProperties::memory_heaps`. -/
structure MemoryHeap where
  device_local : Bool
  size : Nat
  deriving DecidableEq, Repr

/-- A physical adapter with the cached properties the selection reads. -/
structure PhysicalDevice where
  device_type : PhysicalDeviceType
  memory_heap_count : Nat
  memory_heaps : List MemoryHeap
  deriving DecidableEq, Repr

/-- Embeds `get_device_local_memory_size` (`device.rs` lines 837-863): sum, over
the enumerated heap array, of the size of each heap flagged device-local
whose position is below `memory_heap_count`. -/
def get_device_local_memory_size (device : PhysicalDevice) : Nat :=
  (device.memory_heaps.enum.map (fun heap =>
    if heap.1 ≥ device.memory_heap_count then 0
    else if heap.2.device_local then heap.2.size
    else 0)).sum

/-- The reduction step of the physical-device selection
(`device.rs` lines 68-84). -/
def select_physical_device_step (accum current : PhysicalDevice) : PhysicalDevice :=
  let device_type := current.device_type
  let current_memory := get_device_local_memory_size current
  let accum_memory := get_device_local_memory_size accum
  if device_type ≠ PhysicalDeviceType.discrete_gpu then accum
  else if current_memory > accum_memory then current
  else accum

/-- The physical-device selection of `Device::new` (`device.rs` lines 66-85). -/
def select_physical_device (physical_devices : List PhysicalDevice) :
    Option PhysicalDevice :=
  reduce select_physical_device_step physical_devices

/-- The integrated 8 GB adapter of spec §8. -/
def integrated8GB : PhysicalDevice :=
  ⟨PhysicalDeviceType.integrated_gpu, 1, [⟨true, 8 * 1024 * 1024 * 1024⟩]⟩

/-- The discrete 1 GB adapter of spec §8. -/
def discrete1GB : PhysicalDevice :=
  ⟨PhysicalDeviceType.discrete_gpu, 1, [⟨true, 1024 * 1024 * 1024⟩]⟩

/-! ## Queue-family selection (`device.rs`, `find_device_queues_indices`
lines 666-814) -/

/-- The subset of `vk::QueueFlags` the selection logic reads. -/
structure QueueFlags where
  graphics : Bool
  compute : Bool
  transfer : Bool
  deriving DecidableEq, Repr

/-- Models `vk::QueueFamilyProperties`, restricted to the fields the selection reads. -/
structure QueueFamilyProperties where
  queue_flags : QueueFlags
  queue_count : Nat
  deriving DecidableEq, Repr

/-- The reduction step of the graphics-family selection
(`device.rs` lines 683-691), over the enumerated family list. -/
def graphics_queue_step (accum current : Nat × QueueFamilyProperties) :
    Nat × QueueFamilyProperties :=
  if ¬ current.2.queue_flags.graphics then accum
  else if current.2.queue_count < accum.2.queue_count then accum
  else current

/-- The graphics-family selection of `find_device_queues_indices`
(`device.rs` lines 680-692): a reduce over the enumerated
`queue_properties` list. -/
def find_graphics_queue (queue_properties : List QueueFamilyProperties) :
    Option (Nat × QueueFamilyProperties) :=
  reduce graphics_queue_step queue_properties.enum

/-- A family supporting only compute, with 8 queues. -/
def computeOnlyFamily8 : QueueFamilyProperties :=
  ⟨⟨false, true, false⟩, 8⟩

/-- A family supporting graphics, with 4 queues. -/
def graphicsFamily4 : QueueFamilyProperties :=
  ⟨⟨true, false, false⟩, 4⟩

/-! ## Queue-creation requests (`device.rs`, `Device::new` lines 117-164) -/

/-- Models `QueueFamilyInfo` (`device.rs` lines 18-21). -/
structure QueueFamilyInfo where
  index : Nat
  count : Nat
  deriving DecidableEq, Repr

/-- Models `DeviceQueueFamilyIndices`: the per-role family assignments. -/
structure DeviceQueueFamilyIndices where
  graphics : QueueFamilyInfo
  present : QueueFamilyInfo
  transfer : QueueFamilyInfo
  compute : QueueFamilyInfo
  deriving DecidableEq, Repr

/-- Models `vk::DeviceQueueCreateInfo`, restricted to the fields the code sets.
Priorities are the mathematical values of the `f32` priorities. -/
structure DeviceQueueCreateInfo where
  queue_family_index : Nat
  queue_priorities : List ℚ
  deriving DecidableEq, Repr

/-- The `queue_create_infos` list built by `Device::new`
(`device.rs` lines 117-164): graphics first, then transfer and compute
when their family index is not already used, then present last, with a
single queue of priority 1.0, when its index is not already used. -/
def build_queue_create_infos (qfi : DeviceQueueFamilyIndices) :
    List DeviceQueueCreateInfo :=
  let queue_create_infos : List DeviceQueueCreateInfo :=
    [⟨qfi.graphics.index, List.replicate qfi.graphics.count 1⟩]
  let indices_used : List Nat := [qfi.graphics.index]
  let step2 :=
    if qfi.transfer.index ∈ indices_used then (queue_create_infos, indices_used)
    else (queue_create_infos ++ [⟨qfi.transfer.index, List.replicate qfi.transfer.count 1⟩],
          indices_used ++ [qfi.transfer.index])
  let step3 :=
    if qfi.compute.index ∈ step2.2 then step2
    else (step2.1 ++ [⟨qfi.compute.index, List.replicate qfi.compute.count 1⟩],
          step2.2 ++ [qfi.compute.index])
  let step4 :=
    if qfi.present.index ∈ step3.2 then step3
    else (step3.1 ++ [⟨qfi.present.index, [1]⟩],
          step3.2 ++ [qfi.present.index])
  step4.1

/-- A concrete queue-family assignment with four distinct family indices. -/
def exQueueFamilyIndices : DeviceQueueFamilyIndices :=
  ⟨⟨0, 2⟩, ⟨3, 1⟩, ⟨1, 1⟩, ⟨2, 4⟩⟩

/-! ## Queue submission and presentation (`device.rs` lines 369-410,
`surface.rs` lines 213-235) -/

/-- Opaque `vk::Queue` handle. -/
abbrev Queue := Nat

/-- Opaque `vk::CommandBuffer` handle. -/
abbrev CommandBuffer := Nat

/-- Opaque `vk::Semaphore` handle. -/
abbrev Semaphore := Nat

/-- Opaque `vk::Fence` handle. -/
abbrev Fence := Nat

/-- The only `vk::PipelineStageFlags` value the code uses. -/
inductive PipelineStageFlag where
  | color_attachment_output
  deriving DecidableEq, Repr

/-- Models `DeviceQueues`: the retrieved queue handles, grouped by role
(`device.rs` line 27). -/
structure DeviceQueues where
  graphics : List Queue
  present : List Queue
  transfer : List Queue
  compute : List Queue
  deriving DecidableEq, Repr

/-- Models `DeviceCommandBuffers` (`device.rs` line 29). -/
structure DeviceCommandBuffers where
  graphics : List CommandBuffer
  present : List CommandBuffer
  transfer : List CommandBuffer
  compute : List CommandBuffer
  deriving DecidableEq, Repr

/-- The `Device` state read by submission and presentation. -/
structure Device where
  queue_families : DeviceQueues
  command_buffers : DeviceCommandBuffers
  deriving DecidableEq, Repr

/-- Models `vk::SubmitInfo` as built in `Device::submit_graphics_queue`
(`device.rs` lines 377-382). -/
structure SubmitInfo where
  command_buffers : List CommandBuffer
  signal_semaphores : List Semaphore
  wait_semaphores : List Semaphore
  wait_dst_stage_mask : List PipelineStageFlag
  deriving DecidableEq, Repr

/-- The observable effect of a `vkQueueSubmit` call: which queue was
submitted to, with which submit infos and fence. -/
structure SubmitEffect where
  queue : Queue
  submits : List SubmitInfo
  fence : Fence
  deriving DecidableEq, Repr

/-- Models `vk::PresentInfoKHR` as built in `Surface::flip_buffers`
(`surface.rs` lines 226-230). -/
structure PresentInfo where
  wait_semaphores : List Semaphore
  swapchains : List Nat
  image_indices : List Nat
  deriving DecidableEq, Repr

/-- The observable effect of a `vkQueuePresentKHR` call. -/
structure PresentEffect where
  queue : Queue
  present_info : PresentInfo
  deriving DecidableEq, Repr

/-- Embeds `Device::submit_graphics_queue` (`device.rs` lines 369-394): builds the
submit info around the frame's graphics command buffer and submits it on
`queue_families.graphics[frame_index]`; `none` models the `unwrap` panic
when either index is out of bounds. -/
def Device.submit_graphics_queue (d : Device) (frame_index : Nat)
    (signal_semaphores wait_semaphores : List Semaphore)
    (stage_flags : List PipelineStageFlag) (wait_fence : Fence) :
    Option SubmitEffect :=
  match d.command_buffers.graphics.get? frame_index,
        d.queue_families.graphics.get? frame_index with
  | some command_buffer, some queue =>
    some { queue := queue,
           submits := [{ command_buffers := [command_buffer],
                         signal_semaphores := signal_semaphores,
                         wait_semaphores := wait_semaphores,
                         wait_dst_stage_mask := stage_flags }],
           fence := wait_fence }
  | _, _ => none

/-- Embeds `Device::present_queue` (`device.rs` lines 396-410): presents on
`queue_families.graphics[frame_index]` (see the `FIXME` in the source);
`none` models the `unwrap` panic when the index is out of bounds. -/
def Device.present_queue (d : Device) (frame_index : Nat)
    (present_info : PresentInfo) : Option PresentEffect :=
  match d.queue_families.graphics.get? frame_index with
  | some queue => some { queue := queue, present_info := present_info }
  | none => none

/-- Models `MAX_FRAMES_IN_FLIGHT` (`surface.rs` line 11). -/
def MAX_FRAMES_IN_FLIGHT : Nat := 2

/-- The `Surface` state read and written by `flip_buffers`; the shared
`Device` reference is passed explicitly to each operation. -/
structure Surface where
  swapchain : Nat
  image_available : List Semaphore
  render_finished : List Semaphore
  frame_in_flight : List Fence
  current_framebuffer_index : Nat
  deriving DecidableEq, Repr

/-- Embeds `Surface::flip_buffers` (`surface.rs` lines 213-235): submits the
graphics queue at `current_framebuffer_index`, presents passing
`next_image` as the queue index, then advances
`current_framebuffer_index` modulo `MAX_FRAMES_IN_FLIGHT`.  Returns the
new surface state together with the two effects; `none` models a panic. -/
def Surface.flip_buffers (s : Surface) (d : Device) (next_image : Nat) :
    Option (Surface × SubmitEffect × PresentEffect) :=
  match s.render_finished.get? s.current_framebuffer_index,
        s.image_available.get? s.current_framebuffer_index,
        s.frame_in_flight.get? s.current_framebuffer_index with
  | some render_finished, some image_available, some frame_in_flight =>
    match d.submit_graphics_queue s.current_framebuffer_index
        [render_finished] [image_available]
        [PipelineStageFlag.color_attachment_output] frame_in_flight with
    | some submit_effect =>
      match d.present_queue next_image
          { wait_semaphores := [render_finished],
            swapchains := [s.swapchain],
            image_indices := [next_image] } with
      | some present_effect =>
        some ({ s with current_framebuffer_index :=
                  (s.current_framebuffer_index + 1) % MAX_FRAMES_IN_FLIGHT },
              submit_effect, present_effect)
      | none => none
    | none => none
  | _, _, _ => none

/-- A concrete device with two retrieved graphics queues and
`MAX_FRAMES_IN_FLIGHT` command buffers per role. -/
def exDevice : Device :=
  { queue_families := { graphics := [100, 101], present := [200, 201],
                        transfer := [300], compute := [400] },
    command_buffers := { graphics := [10, 11], present := [12, 13],
                         transfer := [14, 15], compute := [16, 17] } }

/-- A concrete surface with `MAX_FRAMES_IN_FLIGHT` synchronization objects
and `current_framebuffer_index = 0`. -/
def exSurface : Surface :=
  { swapchain := 1, image_available := [20, 21], render_finished := [30, 31],
    frame_in_flight := [40, 41], current_framebuffer_index := 0 }

/-- The frame indices observed after each of `n` consecutive successful
calls to `flip_buffers` with acquired image index 0. -/
def flipIndexTrace : Nat → Surface → Device → List Nat
  | 0, _, _ => []
  | n + 1, s, d =>
    match s.flip_buffers d 0 with
    | none => []
    | some (s', _, _) => s'.current_framebuffer_index :: flipIndexTrace n s' d

/-! ## Swap-chain parameter selection (`surface.rs` lines 81-92 and 323-378) -/

/-- Models `vk::Extent2D`. -/
structure Extent2D where
  width : Nat
  height : Nat
  deriving DecidableEq, Repr

/-- Models `vk::SurfaceCapabilitiesKHR`, restricted to the fields the code reads. -/
structure SurfaceCapabilities where
  min_image_count : Nat
  max_image_count : Nat
  current_extent : Extent2D
  min_image_extent : Extent2D
  max_image_extent : Extent2D
  deriving DecidableEq, Repr

/-- The `min_image_count` argument of the swap-chain creation request
built by `Surface::new` (`surface.rs` line 91):
`if capabilities.max_image_count >= 2 { 2 } else { 1 }`. -/
def swapchain_min_image_count (capabilities : SurfaceCapabilities) : Nat :=
  if capabilities.max_image_count ≥ 2 then 2 else 1

/-- Models `vk::PresentModeKHR`, the values the code mentions. -/
inductive PresentMode where
  | immediate
  | mailbox
  | fifo
  | fifo_relaxed
  | shared_demand_refresh
  | shared_continuous_refresh
  deriving DecidableEq, Repr

/-- The reduction step of the present-mode selection
(`surface.rs` lines 346-356). -/
def select_present_mode_step (preferred : PresentMode)
    (accum mode : PresentMode) : PresentMode :=
  if mode = preferred then mode
  else if mode = PresentMode.fifo_relaxed then mode
  else if mode = PresentMode.fifo then mode
  else accum

/-- The present-mode selection of `get_swapchain_parameters`
(`surface.rs` lines 344-357): the default for `preferred` when no
override is given is `SHARED_DEMAND_REFRESH`. -/
def select_present_mode (preferred_present_mode : Option PresentMode)
    (present_modes : List PresentMode) : Option PresentMode :=
  let preferred := preferred_present_mode.getD PresentMode.shared_demand_refresh
  reduce (select_present_mode_step preferred) present_modes

/-- Whether a candidate mode replaces the accumulator in
`select_present_mode_step`: it is the override, relaxed FIFO, or FIFO. -/
def presentModeMatches (preferred mode : PresentMode) : Bool :=
  mode == preferred || mode == PresentMode.fifo_relaxed || mode == PresentMode.fifo

/-- Capabilities reporting `max_image_count = 0` (the Vulkan "no limit"
encoding). -/
def capsNoLimit : SurfaceCapabilities :=
  ⟨1, 0, ⟨1920, 1080⟩, ⟨1, 1⟩, ⟨4096, 4096⟩⟩

/-- Capabilities reporting `max_image_count = 1`. -/
def capsSingle : SurfaceCapabilities :=
  ⟨1, 1, ⟨1920, 1080⟩, ⟨1, 1⟩, ⟨4096, 4096⟩⟩

/-! ## Theorems -/

/-- Helper: `select_present_mode_step` replaces the accumulator exactly when the
candidate matches the override, relaxed FIFO, or FIFO. -/
lemma select_present_mode_step_eq (preferred accum mode : PresentMode) :
    select_present_mode_step preferred accum mode =
      if presentModeMatches preferred mode then mode else accum := by
  unfold select_present_mode_step presentModeMatches
  by_cases h1 : mode = preferred <;> by_cases h2 : mode = PresentMode.fifo_relaxed <;>
    by_cases h3 : mode = PresentMode.fifo <;> simp [h1, h2, h3]

/-- Folding `select_present_mode_step` returns the last matching element,
or the start value when none matches. -/
lemma foldl_select_present_mode_step (preferred : PresentMode)
    (xs : List PresentMode) (a : PresentMode) :
    xs.foldl (select_present_mode_step preferred) a
      = (xs.reverse.find? (presentModeMatches preferred)).getD a := by
  induction xs generalizing a with
  | nil => simp
  | cons x xs ih =>
    simp only [List.foldl_cons, ih, List.reverse_cons]
    rw [List.find?_append]
    cases h : xs.reverse.find? (presentModeMatches preferred) with
    | some y => simp [h]
    | none =>
      cases hm : presentModeMatches preferred x <;>
        simp [h, hm, select_present_mode_step_eq, List.find?]

/-- A successful `flip_buffers` advances the frame index modulo
`MAX_FRAMES_IN_FLIGHT`, submits on the graphics queue indexed by the
frame index, and presents on the graphics queue indexed by the acquired
image index. -/
lemma flip_buffers_components (s : Surface) (d : Device) (ni : Nat)
    (s' : Surface) (sub : SubmitEffect) (pres : PresentEffect)
    (h : s.flip_buffers d ni = some (s', sub, pres)) :
    s' = { s with current_framebuffer_index :=
             (s.current_framebuffer_index + 1) % MAX_FRAMES_IN_FLIGHT }
    ∧ d.queue_families.graphics.get? s.current_framebuffer_index = some sub.queue
    ∧ d.queue_families.graphics.get? ni = some pres.queue := by
  unfold Surface.flip_buffers at h
  rcases hrf : s.render_finished.get? s.current_framebuffer_index with _ | rf <;>
    rw [hrf] at h
  · simp at h
  rcases hia : s.image_available.get? s.current_framebuffer_index with _ | ia <;>
    rw [hia] at h
  · simp at h
  rcases hfif : s.frame_in_flight.get? s.current_framebuffer_index with _ | fif <;>
    rw [hfif] at h
  · simp at h
  unfold Device.submit_graphics_queue Device.present_queue at h
  rcases hcb : d.command_buffers.graphics.get? s.current_framebuffer_index with _ | cb <;>
    rw [hcb] at h
  · simp at h
  rcases hq : d.queue_families.graphics.get? s.current_framebuffer_index with _ | q <;>
    rw [hq] at h
  · simp at h
  rcases hq2 : d.queue_families.graphics.get? ni with _ | q2 <;> rw [hq2] at h
  · simp at h
  simp only [Option.some.injEq, Prod.mk.injEq] at h
  obtain ⟨hs', hsub, hpres⟩ := h
  subst hs' hsub hpres
  exact ⟨rfl, rfl, rfl⟩

/-- C1: when the name is not yet registered and both shader paths exist,
`Device::create_pipeline` inserts the pipeline into the registry but
returns the internal insertion error instead of success: the `is_some()`
test on `HashMap::insert`'s return value is inverted, contradicting the
function's own doc comment ("If the device does not have a pipeline with
the given name and insertion succeeds, returns `true`"). -/
theorem c1_create_pipeline_success_path_returns_internal_error :
    create_pipeline [] (fun _ => true) "vertex_shader.spv" "fragment_shader.spv"
        "my_shader"
      = ([("my_shader", Pipeline.new "vertex_shader.spv" "fragment_shader.spv")],
         Except.error "Failed to insert pipeline into device map") := by
  rfl

/-- C2 counterexample: for the adapter list
`[integrated 8GB, discrete 1GB]` the selection keeps the integrated
adapter — the discrete one is not picked, because a discrete candidate
replaces the current best only when it has strictly more device-local
memory. -/
theorem c2_counterexample_integrated_kept_over_small_discrete :
    select_physical_device [integrated8GB, discrete1GB] = some integrated8GB
    ∧ integrated8GB ≠ discrete1GB := by
  constructor
  · rfl
  · decide

/-- C2 (amended): physical-device selection is the reduce whose step keeps
the current best unless the candidate is discrete with strictly more
device-local memory; a non-discrete candidate never replaces any current
best, but a discrete candidate with no more memory than a non-discrete
best does not replace it either, so `[integrated 8GB, discrete 1GB]`
resolves to the integrated adapter. -/
theorem c2_selection_fold_characterization :
    (∀ physical_devices : List PhysicalDevice,
       select_physical_device physical_devices =
         match physical_devices with
         | [] => none
         | x :: xs => some (xs.foldl select_physical_device_step x))
    ∧ (∀ accum current : PhysicalDevice,
       select_physical_device_step accum current =
         if current.device_type = PhysicalDeviceType.discrete_gpu then
           (if get_device_local_memory_size current >
               get_device_local_memory_size accum
            then current else accum)
         else accum)
    ∧ select_physical_device [integrated8GB, discrete1GB] = some integrated8GB := by
  refine ⟨?_, ?_, rfl⟩
  · intro physical_devices
    cases physical_devices <;> rfl
  · intro accum current
    unfold select_physical_device_step
    by_cases h : current.device_type = PhysicalDeviceType.discrete_gpu <;>
      simp [h]

/-- C4: on the family list `[{compute-only, 8 queues}, {graphics, 4 queues}]`
the graphics-family reduce returns family 0, which does not support the
graphics bit: the reduce never tests the initial accumulator, contradicting
the function's stated purpose and its
"Failed to find a valid graphics queue" expectation. -/
theorem c4_graphics_selection_returns_non_graphics_family :
    find_graphics_queue [computeOnlyFamily8, graphicsFamily4]
        = some (0, computeOnlyFamily8)
    ∧ computeOnlyFamily8.queue_flags.graphics = false := by
  constructor
  · rfl
  · rfl

/-- C5: every error return of `Device::create_pipeline` among duplicate
name, missing vertex shader, and missing fragment shader leaves the
registry unchanged, and the duplicate-name check runs before the
shader-existence checks (the duplicate error is produced for any
`fileExists`, in particular when the shaders are also missing). -/
theorem c5_create_pipeline_errors_leave_registry_unchanged
    (pipelines : PipelineMap) (fileExists : String → Bool)
    (vertex_shader_path fragment_shader_path name : String) :
    (containsKey pipelines name = true →
       create_pipeline pipelines fileExists vertex_shader_path
           fragment_shader_path name
         = (pipelines,
            Except.error "A pipeline already exists with the specified name"))
    ∧ (containsKey pipelines name = false →
       fileExists vertex_shader_path = false →
       create_pipeline pipelines fileExists vertex_shader_path
           fragment_shader_path name
         = (pipelines,
            Except.error "A shader file could not be found at the specified path"))
    ∧ (containsKey pipelines name = false →
       fileExists vertex_shader_path = true →
       fileExists fragment_shader_path = false →
       create_pipeline pipelines fileExists vertex_shader_path
           fragment_shader_path name
         = (pipelines,
            Except.error "A shader file could not be found at the specified path")) := by
  refine ⟨?_, ?_, ?_⟩ <;> intros <;> simp [create_pipeline, *]

/-- Witness for C5 at concrete registries and path predicates. -/
theorem c5_witness :
    (create_pipeline [("my_shader", Pipeline.new "v.spv" "f.spv")]
        (fun _ => false) "v.spv" "f.spv" "my_shader"
      = ([("my_shader", Pipeline.new "v.spv" "f.spv")],
         Except.error "A pipeline already exists with the specified name"))
    ∧ (create_pipeline [] (fun _ => false) "v.spv" "f.spv" "my_shader"
      = ([], Except.error "A shader file could not be found at the specified path"))
    ∧ (create_pipeline [] (fun p => p == "v.spv") "v.spv" "f.spv" "my_shader"
      = ([], Except.error "A shader file could not be found at the specified path")) :=
  ⟨(c5_create_pipeline_errors_leave_registry_unchanged
      [("my_shader", Pipeline.new "v.spv" "f.spv")] (fun _ => false)
      "v.spv" "f.spv" "my_shader").1 rfl,
   (c5_create_pipeline_errors_leave_registry_unchanged
      [] (fun _ => false) "v.spv" "f.spv" "my_shader").2.1 rfl rfl,
   (c5_create_pipeline_errors_leave_registry_unchanged
      [] (fun p => p == "v.spv") "v.spv" "f.spv" "my_shader").2.2 rfl rfl rfl⟩

/-- C7 counterexample: for capabilities with `max_image_count = 0` (the
"no limit" encoding) the request asks for 1 image, while
`min(2, max_image_count)` would be 0. -/
theorem c7_counterexample_max_image_count_zero :
    ¬ (swapchain_min_image_count capsNoLimit
        = min 2 capsNoLimit.max_image_count) := by
  decide

/-- C7 (amended): the requested minimum image count is
`if max_image_count ≥ 2 then 2 else 1`, which agrees with
`min(2, max_image_count)` for every capabilities value whose
`max_image_count` is at least 1. -/
theorem c7_min_image_count_amended (capabilities : SurfaceCapabilities)
    (h : 1 ≤ capabilities.max_image_count) :
    swapchain_min_image_count capabilities
      = min 2 capabilities.max_image_count := by
  unfold swapchain_min_image_count
  split <;> omega

/-- Witness for C7 at `max_image_count = 1`. -/
theorem c7_witness :
    1 ≤ capsSingle.max_image_count
    ∧ swapchain_min_image_count capsSingle = min 2 capsSingle.max_image_count :=
  ⟨by decide, c7_min_image_count_amended capsSingle (by decide)⟩

/-- C3: every successful submission and every successful presentation uses
a queue from the graphics queue array, and both operations are
insensitive to the contents of the present queue array (replacing it by
anything leaves their results unchanged), even when a distinct present
family was assigned. -/
theorem c3_submit_and_present_use_graphics_queue_array :
    (∀ (d : Device) (frame_index : Nat)
       (signal_semaphores wait_semaphores : List Semaphore)
       (stage_flags : List PipelineStageFlag) (wait_fence : Fence)
       (e : SubmitEffect),
       d.submit_graphics_queue frame_index signal_semaphores wait_semaphores
           stage_flags wait_fence = some e →
         e.queue ∈ d.queue_families.graphics)
    ∧ (∀ (d : Device) (frame_index : Nat) (present_info : PresentInfo)
         (e : PresentEffect),
       d.present_queue frame_index present_info = some e →
         e.queue ∈ d.queue_families.graphics)
    ∧ (∀ (d : Device) (p : List Queue) (frame_index : Nat)
         (signal_semaphores wait_semaphores : List Semaphore)
         (stage_flags : List PipelineStageFlag) (wait_fence : Fence)
         (present_info : PresentInfo),
       Device.submit_graphics_queue
           { d with queue_families := { d.queue_families with present := p } }
           frame_index signal_semaphores wait_semaphores stage_flags wait_fence
         = d.submit_graphics_queue frame_index signal_semaphores
             wait_semaphores stage_flags wait_fence
       ∧ Device.present_queue
           { d with queue_families := { d.queue_families with present := p } }
           frame_index present_info
         = d.present_queue frame_index present_info) := by
  refine ⟨?_, ?_, ?_⟩
  · intro d fi sig wait st fe e h
    unfold Device.submit_graphics_queue at h
    rcases hcb : d.command_buffers.graphics.get? fi with _ | cb <;> rw [hcb] at h
    · simp at h
    rcases hq : d.queue_families.graphics.get? fi with _ | q <;> rw [hq] at h
    · simp at h
    simp only [Option.some.injEq] at h
    subst h
    exact List.get?_mem hq
  · intro d fi info e h
    unfold Device.present_queue at h
    rcases hq : d.queue_families.graphics.get? fi with _ | q <;> rw [hq] at h
    · simp at h
    simp only [Option.some.injEq] at h
    subst h
    exact List.get?_mem hq
  · intro d p fi sig wait st fe info
    exact ⟨rfl, rfl⟩

/-- Witness for C3 on the concrete device: frame 0's submission uses
queue 100 and frame 1's presentation uses queue 101, both members of the
graphics queue array. -/
theorem c3_witness :
    ((⟨100, [⟨[10], [30], [20], [PipelineStageFlag.color_attachment_output]⟩],
        40⟩ : SubmitEffect).queue ∈ exDevice.queue_families.graphics)
    ∧ ((⟨101, ⟨[30], [1], [0]⟩⟩ : PresentEffect).queue
        ∈ exDevice.queue_families.graphics) :=
  ⟨c3_submit_and_present_use_graphics_queue_array.1 exDevice 0 [30] [20]
      [PipelineStageFlag.color_attachment_output] 40 _ rfl,
   c3_submit_and_present_use_graphics_queue_array.2.1 exDevice 1
      ⟨[30], [1], [0]⟩ _ rfl⟩

/-- C6: every successful `flip_buffers` call sets
`current_frame_index` to `(previous + 1) mod MAX_FRAMES_IN_FLIGHT`, and
5 consecutive calls starting at index 0 observe the sequence
1, 0, 1, 0, 1. -/
theorem c6_flip_buffers_advances_frame_index :
    (∀ (s : Surface) (d : Device) (next_image : Nat)
       (s' : Surface) (sub : SubmitEffect) (pres : PresentEffect),
       s.flip_buffers d next_image = some (s', sub, pres) →
         s'.current_framebuffer_index
           = (s.current_framebuffer_index + 1) % MAX_FRAMES_IN_FLIGHT)
    ∧ flipIndexTrace 5 exSurface exDevice = [1, 0, 1, 0, 1] := by
  constructor
  · intro s d ni s' sub pres h
    obtain ⟨hs', _, _⟩ := flip_buffers_components s d ni s' sub pres h
    rw [hs']
  · rfl

/-- Witness for C6: the first call on the concrete surface advances the
index from 0 to 1 = (0 + 1) mod 2. -/
theorem c6_witness :
    ({ exSurface with current_framebuffer_index := 1 } : Surface).current_framebuffer_index
      = (exSurface.current_framebuffer_index + 1) % MAX_FRAMES_IN_FLIGHT :=
  c6_flip_buffers_advances_frame_index.1 exSurface exDevice 0 _ _ _ rfl

/-- C8 counterexample: with the explicit override `MAILBOX` present in
the supported list `[MAILBOX, FIFO]`, selection returns `FIFO`, not the
override: a later FIFO entry overwrites an earlier match. -/
theorem c8_counterexample_override_not_respected :
    ¬ (select_present_mode (some PresentMode.mailbox)
        [PresentMode.mailbox, PresentMode.fifo] = some PresentMode.mailbox) := by
  decide

/-- C8 (amended): present-mode selection is a reduce whose result is the
last mode after the first position equal to the override (defaulting to
shared-demand-refresh when no override is given), relaxed FIFO, or FIFO,
falling back to the first supported mode when no later element matches;
in particular `[FIFO, MAILBOX]` with no override yields FIFO. -/
theorem c8_present_mode_selection_amended :
    (∀ (preferred_present_mode : Option PresentMode)
       (present_modes : List PresentMode),
       select_present_mode preferred_present_mode present_modes =
         match present_modes with
         | [] => none
         | x :: xs =>
           some ((xs.reverse.find? (presentModeMatches
               (preferred_present_mode.getD
                 PresentMode.shared_demand_refresh))).getD x))
    ∧ select_present_mode none [PresentMode.fifo, PresentMode.mailbox]
        = some PresentMode.fifo := by
  constructor
  · intro pref modes
    cases modes with
    | nil => rfl
    | cons x xs =>
      simp [select_present_mode, reduce, foldl_select_present_mode_step]
  · decide

/-- C10: `flip_buffers` passes the acquired image index (not the frame
index) to `present_queue`, which indexes the graphics queue array with
it — so any image index at or beyond the graphics queue count makes the
lookup panic and the whole call abort — while the submission of the same
call indexes the graphics queues by `current_frame_index`. -/
theorem c10_present_indexed_by_image_index (s : Surface) (d : Device)
    (next_image : Nat) :
    (d.queue_families.graphics.length ≤ next_image →
       (∀ present_info, d.present_queue next_image present_info = none)
       ∧ s.flip_buffers d next_image = none)
    ∧ (∀ (s' : Surface) (sub : SubmitEffect) (pres : PresentEffect),
       s.flip_buffers d next_image = some (s', sub, pres) →
         d.queue_families.graphics.get? next_image = some pres.queue
         ∧ d.queue_families.graphics.get? s.current_framebuffer_index
             = some sub.queue) := by
  constructor
  · intro hlen
    have hnone : d.queue_families.graphics[next_image]? = none :=
      List.getElem?_eq_none_iff.mpr hlen
    constructor
    · intro info
      simp [Device.present_queue, hnone]
    · rcases hrf : s.render_finished[s.current_framebuffer_index]? with _ | rf
      · simp [Surface.flip_buffers, hrf]
      rcases hia : s.image_available[s.current_framebuffer_index]? with _ | ia
      · simp [Surface.flip_buffers, hrf, hia]
      rcases hfif : s.frame_in_flight[s.current_framebuffer_index]? with _ | fif
      · simp [Surface.flip_buffers, hrf, hia, hfif]
      rcases hcb : d.command_buffers.graphics[s.current_framebuffer_index]?
          with _ | cb
      · simp [Surface.flip_buffers, Device.submit_graphics_queue, hrf, hia, hfif, hcb]
      rcases hq : d.queue_families.graphics[s.current_framebuffer_index]?
          with _ | q
      · simp [Surface.flip_buffers, Device.submit_graphics_queue, hrf, hia, hfif,
          hcb, hq]
      simp [Surface.flip_buffers, Device.submit_graphics_queue, Device.present_queue,
        hrf, hia, hfif, hcb, hq, hnone]
  · intro s' sub pres h
    obtain ⟨_, hsub, hpres⟩ := flip_buffers_components s d next_image s' sub pres h
    exact ⟨hpres, hsub⟩

/-- The queue-creation request list, spelled out: one deduplicating
conditional block per role, in source order. -/
lemma build_queue_create_infos_eq (qfi : DeviceQueueFamilyIndices) :
    build_queue_create_infos qfi =
      [⟨qfi.graphics.index, List.replicate qfi.graphics.count 1⟩]
      ++ (if qfi.transfer.index = qfi.graphics.index then []
          else [⟨qfi.transfer.index, List.replicate qfi.transfer.count 1⟩])
      ++ (if qfi.compute.index = qfi.graphics.index
             ∨ qfi.compute.index = qfi.transfer.index then []
          else [⟨qfi.compute.index, List.replicate qfi.compute.count 1⟩])
      ++ (if qfi.present.index = qfi.graphics.index
             ∨ qfi.present.index = qfi.transfer.index
             ∨ qfi.present.index = qfi.compute.index then []
          else [⟨qfi.present.index, [1]⟩]) := by
  unfold build_queue_create_infos
  by_cases h1 : qfi.transfer.index = qfi.graphics.index <;>
    by_cases h2 : qfi.compute.index = qfi.graphics.index <;>
    by_cases h3 : qfi.compute.index = qfi.transfer.index <;>
    by_cases h4 : qfi.present.index = qfi.graphics.index <;>
    by_cases h5 : qfi.present.index = qfi.transfer.index <;>
    by_cases h6 : qfi.present.index = qfi.compute.index <;>
    simp [h1, h2, h3, h4, h5, h6]

/-- The family indices of the queue-creation requests, spelled out. -/
lemma build_index_list_eq (qfi : DeviceQueueFamilyIndices) :
    (build_queue_create_infos qfi).map DeviceQueueCreateInfo.queue_family_index =
      [qfi.graphics.index]
      ++ (if qfi.transfer.index = qfi.graphics.index then []
          else [qfi.transfer.index])
      ++ (if qfi.compute.index = qfi.graphics.index
             ∨ qfi.compute.index = qfi.transfer.index then []
          else [qfi.compute.index])
      ++ (if qfi.present.index = qfi.graphics.index
             ∨ qfi.present.index = qfi.transfer.index
             ∨ qfi.present.index = qfi.compute.index then []
          else [qfi.present.index]) := by
  rw [build_queue_create_infos_eq]
  simp [apply_ite (List.map DeviceQueueCreateInfo.queue_family_index)]

/-- C9: in the queue-creation request list, each family index used by the
graphics, present, transfer, or compute assignment appears in exactly one
request, and when the present family's index is distinct from all
previously added ones its request is added last, with exactly one queue
of priority 1.0. -/
theorem c9_queue_create_infos_deduplicated (qfi : DeviceQueueFamilyIndices) :
    (∀ i ∈ [qfi.graphics.index, qfi.present.index,
            qfi.transfer.index, qfi.compute.index],
       ((build_queue_create_infos qfi).map
           DeviceQueueCreateInfo.queue_family_index).count i = 1)
    ∧ (qfi.present.index ∉ [qfi.graphics.index, qfi.transfer.index,
            qfi.compute.index] →
       (build_queue_create_infos qfi).getLast?
         = some ⟨qfi.present.index, [1]⟩) := by
  obtain ⟨⟨g, gc⟩, ⟨p, pc⟩, ⟨t, tc⟩, ⟨c, cc⟩⟩ := qfi
  constructor
  · intro i hi
    simp only [List.mem_cons, List.mem_singleton, List.not_mem_nil, or_false] at hi
    rw [build_index_list_eq]
    apply List.count_eq_one_of_mem
    · by_cases h1 : t = g <;> by_cases h2 : c = g <;> by_cases h3 : c = t <;>
        by_cases h4 : p = g <;> by_cases h5 : p = t <;> by_cases h6 : p = c <;>
        simp_all [List.nodup_cons, List.nodup_nil, List.mem_cons,
          List.mem_singleton, List.not_mem_nil, not_or] <;>
        omega
    · rcases hi with hi | hi | hi | hi <;>
        by_cases h1 : t = g <;> by_cases h2 : c = g <;> by_cases h3 : c = t <;>
        by_cases h4 : p = g <;> by_cases h5 : p = t <;> by_cases h6 : p = c <;>
        simp_all [List.mem_append, List.mem_cons, List.mem_singleton,
          List.not_mem_nil, not_or]
  · intro hp
    simp only [List.mem_cons, List.mem_singleton, List.not_mem_nil, or_false,
      not_or] at hp
    obtain ⟨hp1, hp2, hp3⟩ := hp
    have hcond : ¬(p = g ∨ p = t ∨ p = c) := by
      push_neg
      exact ⟨hp1, hp2, hp3⟩
    rw [build_queue_create_infos_eq, if_neg hcond]
    exact List.getLast?_concat _

/-- Witness for C9 on a concrete assignment with four distinct family
indices: the present family's index appears once and its single-queue
request is last. -/
theorem c9_witness :
    (((build_queue_create_infos exQueueFamilyIndices).map
        DeviceQueueCreateInfo.queue_family_index).count 3 = 1)
    ∧ (build_queue_create_infos exQueueFamilyIndices).getLast? = some ⟨3, [1]⟩ :=
  ⟨(c9_queue_create_infos_deduplicated exQueueFamilyIndices).1 3 (by decide),
   (c9_queue_create_infos_deduplicated exQueueFamilyIndices).2 (by decide)⟩

/-- Witness for C10: on the concrete device with 2 graphics queues, image
index 9 makes presentation (and the whole flip) abort, while the
successful call at image index 0 presents on graphics queue 100 and
submits on graphics queue 100. -/
theorem c10_witness :
    ((∀ present_info, exDevice.present_queue 9 present_info = none)
      ∧ exSurface.flip_buffers exDevice 9 = none)
    ∧ (exDevice.queue_families.graphics.get? 0
         = some (⟨100, ⟨[30], [1], [0]⟩⟩ : PresentEffect).queue
       ∧ exDevice.queue_families.graphics.get? 0
         = some (⟨100, [⟨[10], [30], [20],
             [PipelineStageFlag.color_attachment_output]⟩], 40⟩ : SubmitEffect).queue) :=
  ⟨(c10_present_indexed_by_image_index exSurface exDevice 9).1 (by decide),
   (c10_present_indexed_by_image_index exSurface exDevice 0).2 _ _ _ rfl⟩

end RustGame
